import Mathlib

/-!
Shallow embedding of `src/lib/ai-service.ts` (the Outreach Assistant module):
tag suggestion by keyword substring matching, reporter/content matching scores,
recommendation drafting, and the `processContent` orchestration.

Modelling conventions:
* JS strings are Lean `String`; `String.prototype.toLowerCase` is modelled
  character-wise by `Char.toLower` (ASCII case mapping, which agrees with JS on
  the keyword catalog and all inputs considered here), and
  `String.prototype.includes` by contiguous-sublist search on character lists.
* JS numbers are `ℚ`; `Math.round x` is `⌊x + 1/2⌋` (the two agree on all
  non-negative values, which is all this module rounds).
* `Math.random() * 10` is an explicit parameter `rand10 : ℚ` with the contract
  `0 ≤ rand10 < 10`; `processContent` takes one such value per reporter.
* The `catch` branches of the source are separate explicit definitions
  (`calculateMatchingScoreError`, `generateRecommendationError`), since the
  success paths of the embedding are total.
-/

/-- JS `String.prototype.toLowerCase`, modelled character-wise. -/
def jsToLower (s : String) : String := ⟨s.data.map Char.toLower⟩

/-- Does `pat` occur as a contiguous run inside the character list? -/
def includesAux (pat : List Char) : List Char → Bool
  | [] => pat.isEmpty
  | c :: cs => pat.isPrefixOf (c :: cs) || includesAux pat cs

/-- JS `s.includes pat`: substring containment. -/
def jsIncludes (s pat : String) : Bool := includesAux pat.data s.data

/-- JS `Math.round`, for the non-negative values arising here. -/
def jsRound (x : ℚ) : ℤ := ⌊x + 1/2⌋

/-- `Math.round (x * 10) / 10` as in the source: round to one decimal place. -/
def roundTo1 (x : ℚ) : ℚ := ((jsRound (x * 10) : ℤ) : ℚ) / 10

/-- `ReporterProfile` from `ai-service.ts` (lines 25-31). -/
structure ReporterProfile where
  id : String
  name : String
  email : String
  company : String
  socialMedia : Option String

/-- `ContentProfile` from `ai-service.ts` (lines 33-39). -/
structure ContentProfile where
  id : String
  title : String
  summary : String
  body : String
  status : String

/-- Tag categories from the `TagSuggestion` interface (line 8). -/
inductive TagCategory where
  | INDUSTRY
  | TOPIC
  | COMPANY
  | TECHNOLOGY
  | EVENT

/-- `TagSuggestion` from `ai-service.ts` (lines 6-10). -/
structure TagSuggestion where
  name : String
  category : TagCategory
  confidence : ℚ

/-- `MatchingScoreResult` from `ai-service.ts` (lines 12-17). -/
structure MatchingScoreResult where
  reporterId : String
  contentId : String
  score : ℚ
  reasons : List String

/-- The tone variants of `RecommendationDraft` (line 22). -/
inductive Tone where
  | FORMAL
  | CASUAL
  | URGENT

/-- `RecommendationDraft` from `ai-service.ts` (lines 19-23). -/
structure RecommendationDraft where
  subject : String
  body : String
  tone : Tone

/-- One entry of the `recommendations` array built by `processContent`. -/
structure Recommendation where
  reporterId : String
  draft : RecommendationDraft

/-- The record returned by `processContent` (lines 179-186). -/
structure ProcessResult where
  tags : List TagSuggestion
  matchingResults : List MatchingScoreResult
  recommendations : List Recommendation

/-- The fixed keyword catalog of `extractKeywords` (lines 231-235). -/
def keywordCatalog : List String :=
  ["AI", "DX", "IT", "クラウド", "セキュリティ", "IoT",
   "スタートアップ", "投資", "金融", "製造", "教育",
   "リクルート", "テクノロジー", "デジタル", "システム"]

/-- `extractKeywords` (lines 230-240): catalog keywords present
case-insensitively in `text`. -/
def extractKeywords (text : String) : List String :=
  keywordCatalog.filter (fun keyword =>
    jsIncludes (jsToLower text) (jsToLower keyword))

/-- The `commonKeywords` intersection computed inside `calculateMatchingScore`
(lines 98-106). -/
def commonKeywords (reporter : ReporterProfile) (content : ContentProfile) :
    List String :=
  (extractKeywords reporter.company).filter (fun keyword =>
    (extractKeywords (content.title ++ " " ++ content.summary)).any
      (fun contentKeyword =>
        jsIncludes (jsToLower contentKeyword) (jsToLower keyword)))

/-- Success path of `calculateMatchingScore` (lines 95-124); `rand10` stands
for the `Math.random() * 10` draw. -/
def calculateMatchingScore (reporter : ReporterProfile)
    (content : ContentProfile) (rand10 : ℚ) : MatchingScoreResult :=
  let common := commonKeywords reporter content
  let baseScore : ℚ := min 90 ((common.length : ℚ) * 15 + 60)
  let score := baseScore + rand10
  { reporterId := reporter.id
    contentId := content.id
    score := roundTo1 score
    reasons := common.take 3 ++ ["記者の専門性", "関連性の高さ"] }

/-- The `catch` branch of `calculateMatchingScore` (lines 126-134). -/
def calculateMatchingScoreError (reporter : ReporterProfile)
    (content : ContentProfile) : MatchingScoreResult :=
  { reporterId := reporter.id
    contentId := content.id
    score := 0
    reasons := ["計算エラー"] }

/-- The `mockTags` catalog of `generateTags` (lines 58-63). -/
def mockTags : List TagSuggestion :=
  [{ name := "AI・機械学習", category := TagCategory.TECHNOLOGY, confidence := 0.95 },
   { name := "IT業界", category := TagCategory.INDUSTRY, confidence := 0.8 },
   { name := "DX・デジタル変革", category := TagCategory.TECHNOLOGY, confidence := 0.85 },
   { name := "リクルート", category := TagCategory.COMPANY, confidence := 0.9 }]

/-- `generateTags` (lines 52-84): filter the catalog by the substring rules on
the lowercased concatenation of title, summary and body. -/
def generateTags (content : ContentProfile) : List TagSuggestion :=
  mockTags.filter (fun tag =>
    let contentText :=
      jsToLower (content.title ++ " " ++ content.summary ++ " " ++ content.body)
    (jsIncludes tag.name "AI" && jsIncludes contentText "ai")
    || (jsIncludes tag.name "DX" && jsIncludes contentText "dx")
    || (jsIncludes tag.name "リクルート" && jsIncludes contentText "リクルート")
    || (jsIncludes tag.name "IT"
        && (jsIncludes contentText "it" || jsIncludes contentText "システム")))

/-- `generateSubject` (lines 242-247). -/
def generateSubject (content : ContentProfile) (reporter : ReporterProfile)
    (score : ℚ) : String :=
  let urgency := if score > 85 then "【緊急】" else "【取材ご提案】"
  let company := if jsIncludes reporter.company "新聞" then "新聞" else "メディア"
  urgency ++ company ++ "様向け - " ++ content.title ++ "について"

/-- `generateBody` (lines 249-268); JS number interpolation of the score is
modelled by `ℚ`-rendering, which no claim inspects. -/
def generateBody (content : ContentProfile) (reporter : ReporterProfile)
    (score : ℚ) : String :=
  let honorific := if jsIncludes reporter.company "新聞" then "様" else "さん"
  let urgency := if score > 85 then "ぜひ優先的に" else ""
  reporter.name ++ honorific
    ++ "\n\nいつもお世話になっております。\nリクルート広報担当です。\n\n"
    ++ content.summary ++ "\n\n" ++ reporter.company ++ "でご活躍の"
    ++ reporter.name ++ honorific
    ++ "の専門性に非常に適した内容と判断し、" ++ urgency
    ++ "取材をご提案させていただきます。\n\nマッチングスコア: "
    ++ toString score
    ++ "点\n\n詳細についてご説明の機会をいただければ幸いです。\nお忙しい中恐縮ですが、ご検討のほどよろしくお願いいたします。\n\nリクルート広報チーム"

/-- Success path of `generateRecommendation` (lines 140-161). -/
def generateRecommendation (reporter : ReporterProfile)
    (content : ContentProfile) (matchingScore : ℚ) : RecommendationDraft :=
  let tone := if matchingScore > 85 then Tone.URGENT else Tone.FORMAL
  { subject := generateSubject content reporter matchingScore
    body := generateBody content reporter matchingScore
    tone := tone }

/-- The `catch` branch of `generateRecommendation` (lines 163-170). -/
def generateRecommendationError (content : ContentProfile) :
    RecommendationDraft :=
  { subject := "【取材ご提案】" ++ content.title
    body := "レコメンド文章の生成に失敗しました。"
    tone := Tone.FORMAL }

/-- `processContent` (lines 176-227); `rands` supplies one `Math.random() * 10`
draw per reporter. The non-null assertion on the reporter lookup (line 203) is
modelled by `filterMap` over `find?`; the lookup always succeeds because the
scored results carry ids taken from the same reporter list. -/
def processContent (content : ContentProfile)
    (reporters : List ReporterProfile) (rands : List ℚ) : ProcessResult :=
  let tags := generateTags content
  let matchingResults :=
    (reporters.zip rands).map (fun pr => calculateMatchingScore pr.1 content pr.2)
  let highScoreReporters := matchingResults.filter (fun result => 75 ≤ result.score)
  let recommendations := highScoreReporters.filterMap (fun result =>
    (reporters.find? (fun r => r.id == result.reporterId)).map (fun reporter =>
      { reporterId := result.reporterId
        draft := generateRecommendation reporter content result.score }))
  { tags := tags
    matchingResults := matchingResults
    recommendations := recommendations }

/-- Shared-keyword count as the spec phrases it: catalog keywords found
case-insensitively in `reporter.company` such that at least one catalog
keyword found in `content.title ++ " " ++ content.summary` contains that
keyword as a case-insensitive substring. Stated independently of
`commonKeywords` to compare the code against the spec formula. -/
def specSharedKeywordCount (reporter : ReporterProfile)
    (content : ContentProfile) : ℕ :=
  keywordCatalog.countP (fun keyword =>
    jsIncludes (jsToLower reporter.company) (jsToLower keyword)
    && (keywordCatalog.filter (fun k2 =>
          jsIncludes (jsToLower (content.title ++ " " ++ content.summary))
            (jsToLower k2))).any
        (fun contentKeyword =>
          jsIncludes (jsToLower contentKeyword) (jsToLower keyword)))

/-- Sample content from the spec end-to-end scenario. -/
def exContent : ContentProfile :=
  { id := "content-1", title := "Our AI DX project", summary := "", body := ""
    status := "PUBLISHED" }

/-- Sample reporter from the spec end-to-end scenario. -/
def exReporter : ReporterProfile :=
  { id := "reporter-1", name := "Yamada", email := "reporter@example.com"
    company := "Example Newspaper Co. AI desk", socialMedia := none }

/-- A content item triggering none of the tag or keyword rules. -/
def plainContent : ContentProfile :=
  { id := "content-2", title := "hello", summary := "world", body := ""
    status := "DRAFT" }

/-- A reporter whose company matches no catalog keyword. -/
def plainReporter : ReporterProfile :=
  { id := "reporter-2", name := "Suzuki", email := "suzuki@example.com"
    company := "General News", socialMedia := none }

/-- Projection of the success-path score: the rounded base-plus-random value. -/
theorem calculateMatchingScore_score_eq (reporter : ReporterProfile)
    (content : ContentProfile) (rand10 : ℚ) :
    (calculateMatchingScore reporter content rand10).score
      = roundTo1 (min 90 (((commonKeywords reporter content).length : ℚ) * 15 + 60)
          + rand10) := rfl

/-- The success path copies the reporter id unchanged. -/
@[simp] theorem calculateMatchingScore_reporterId (reporter : ReporterProfile)
    (content : ContentProfile) (rand10 : ℚ) :
    (calculateMatchingScore reporter content rand10).reporterId = reporter.id := rfl

/-- Lower bound for one-decimal rounding: an integer bound below the input
survives the rounding. -/
theorem roundTo1_ge (x : ℚ) (n : ℤ) (h : (n : ℚ) ≤ x) : (n : ℚ) ≤ roundTo1 x := by
  have h1 : (10 * n : ℤ) ≤ jsRound (x * 10) := by
    rw [jsRound]
    apply Int.le_floor.mpr
    push_cast
    linarith
  have h2 : ((10 * n : ℤ) : ℚ) ≤ ((jsRound (x * 10) : ℤ) : ℚ) := by exact_mod_cast h1
  rw [roundTo1]
  push_cast at h2
  linarith

/-- Upper bound for one-decimal rounding: a strict integer bound above the
input bounds the rounded value. -/
theorem roundTo1_le (x : ℚ) (n : ℤ) (h : x < (n : ℚ)) : roundTo1 x ≤ (n : ℚ) := by
  have h1 : jsRound (x * 10) < 10 * n + 1 := by
    rw [jsRound]
    apply Int.floor_lt.mpr
    push_cast
    linarith
  have h1a : jsRound (x * 10) ≤ 10 * n := by omega
  have h2 : ((jsRound (x * 10) : ℤ) : ℚ) ≤ ((10 * n : ℤ) : ℚ) := by exact_mod_cast h1a
  rw [roundTo1]
  push_cast at h2
  linarith

/-- The base score is at least 60 for any shared-keyword count. -/
theorem baseScore_ge_60 (k : ℕ) : (60 : ℚ) ≤ min 90 ((k : ℚ) * 15 + 60) := by
  apply le_min
  · norm_num
  · have hk : (0 : ℚ) ≤ (k : ℚ) := Nat.cast_nonneg k
    linarith

/-- The base score is capped at 90 for any shared-keyword count. -/
theorem baseScore_le_90 (k : ℕ) : min 90 ((k : ℚ) * 15 + 60) ≤ 90 :=
  min_le_left _ _

/-- C1: for every reporter, content and random draw in [0,10), the score of
`calculateMatchingScore` lies within [0,100] on the success path, and the
error-path score 0 also lies within [0,100]. -/
theorem calculateMatchingScore_score_in_range (reporter : ReporterProfile)
    (content : ContentProfile) (rand10 : ℚ) (h0 : 0 ≤ rand10) (h1 : rand10 < 10) :
    (0 ≤ (calculateMatchingScore reporter content rand10).score
      ∧ (calculateMatchingScore reporter content rand10).score ≤ 100)
    ∧ (0 ≤ (calculateMatchingScoreError reporter content).score
      ∧ (calculateMatchingScoreError reporter content).score ≤ 100) := by
  rw [calculateMatchingScore_score_eq]
  set k := (commonKeywords reporter content).length with hk
  have hlo := baseScore_ge_60 k
  have hhi := baseScore_le_90 k
  refine ⟨⟨?_, ?_⟩, ?_⟩
  · have := roundTo1_ge (min 90 ((k : ℚ) * 15 + 60) + rand10) 0 (by push_cast; linarith)
    push_cast at this
    linarith
  · have := roundTo1_le (min 90 ((k : ℚ) * 15 + 60) + rand10) 100 (by push_cast; linarith)
    push_cast at this
    linarith
  · constructor <;> norm_num [calculateMatchingScoreError]

/-- C1 witness: the range theorem applied at a concrete reporter, content and
random draw 0. -/
theorem calculateMatchingScore_score_in_range_witness :
    ((0 : ℚ) ≤ 0 ∧ (0 : ℚ) < 10)
    ∧ ((0 ≤ (calculateMatchingScore plainReporter plainContent 0).score
        ∧ (calculateMatchingScore plainReporter plainContent 0).score ≤ 100)
      ∧ (0 ≤ (calculateMatchingScoreError plainReporter plainContent).score
        ∧ (calculateMatchingScoreError plainReporter plainContent).score ≤ 100)) :=
  ⟨⟨by decide, by decide⟩,
    calculateMatchingScore_score_in_range plainReporter plainContent 0
      (by decide) (by decide)⟩

/-- C10: on the success path the score is at least 60 for every reporter,
content and non-negative random draw, while the error fallback scores 0. -/
theorem calculateMatchingScore_score_ge_60 (reporter : ReporterProfile)
    (content : ContentProfile) (rand10 : ℚ) (h0 : 0 ≤ rand10) :
    60 ≤ (calculateMatchingScore reporter content rand10).score
    ∧ (calculateMatchingScoreError reporter content).score = 0 := by
  rw [calculateMatchingScore_score_eq]
  set k := (commonKeywords reporter content).length with hk
  have hlo := baseScore_ge_60 k
  refine ⟨?_, rfl⟩
  have := roundTo1_ge (min 90 ((k : ℚ) * 15 + 60) + rand10) 60 (by push_cast; linarith)
  push_cast at this
  linarith

/-- C10 witness: the lower-bound theorem applied at a concrete reporter,
content and random draw 0. -/
theorem calculateMatchingScore_score_ge_60_witness :
    (0 : ℚ) ≤ 0
    ∧ (60 ≤ (calculateMatchingScore exReporter plainContent 0).score
      ∧ (calculateMatchingScoreError exReporter plainContent).score = 0) :=
  ⟨by decide, calculateMatchingScore_score_ge_60 exReporter plainContent 0 (by decide)⟩

/-- The intersection computed by the code has the same size as the
shared-keyword count phrased by the spec. -/
theorem commonKeywords_length_eq_spec (reporter : ReporterProfile)
    (content : ContentProfile) :
    (commonKeywords reporter content).length
      = specSharedKeywordCount reporter content := by
  simp only [commonKeywords, extractKeywords, specSharedKeywordCount,
    List.filter_filter, List.countP_eq_length_filter]
  congr 1
  apply List.filter_congr
  intro a _
  rw [Bool.and_comm]

/-- C2: for every reporter, content and random draw in [0,10), the success-path
score equals the one-decimal rounding of `min 90 (k * 15 + 60) + rand10`,
where `k` is the shared-keyword count as phrased by the spec. -/
theorem calculateMatchingScore_formula (reporter : ReporterProfile)
    (content : ContentProfile) (rand10 : ℚ) (h0 : 0 ≤ rand10) (h1 : rand10 < 10) :
    (calculateMatchingScore reporter content rand10).score
      = roundTo1 (min 90 ((specSharedKeywordCount reporter content : ℚ) * 15 + 60)
          + rand10) := by
  rw [calculateMatchingScore_score_eq, commonKeywords_length_eq_spec]

/-- C2 witness: the formula theorem applied at a concrete reporter, content
and random draw 0. -/
theorem calculateMatchingScore_formula_witness :
    ((0 : ℚ) ≤ 0 ∧ (0 : ℚ) < 10)
    ∧ (calculateMatchingScore exReporter exContent 0).score
        = roundTo1 (min 90 ((specSharedKeywordCount exReporter exContent : ℚ) * 15 + 60)
            + 0) :=
  ⟨⟨by decide, by decide⟩,
    calculateMatchingScore_formula exReporter exContent 0 (by decide) (by decide)⟩

/-- C3: for every reporter, content and numeric score, the draft tone is
URGENT exactly when the score exceeds 85 and FORMAL otherwise; CASUAL is never
produced, on the success path or on the error path. -/
theorem generateRecommendation_tone_spec (reporter : ReporterProfile)
    (content : ContentProfile) (matchingScore : ℚ) :
    ((generateRecommendation reporter content matchingScore).tone = Tone.URGENT
      ↔ matchingScore > 85)
    ∧ ((generateRecommendation reporter content matchingScore).tone = Tone.FORMAL
      ↔ ¬ matchingScore > 85)
    ∧ (generateRecommendation reporter content matchingScore).tone ≠ Tone.CASUAL
    ∧ (generateRecommendationError content).tone ≠ Tone.CASUAL := by
  by_cases h : matchingScore > 85 <;>
    simp [generateRecommendation, generateRecommendationError, h]

/-- C7: for every reporter, content and random draw, the success-path reasons
are exactly the first three intersection keywords followed by the two fixed
phrases, hence at most five entries; the error path gives the single fixed
entry. -/
theorem calculateMatchingScore_reasons_spec (reporter : ReporterProfile)
    (content : ContentProfile) (rand10 : ℚ) :
    (calculateMatchingScore reporter content rand10).reasons
      = (commonKeywords reporter content).take 3 ++ ["記者の専門性", "関連性の高さ"]
    ∧ (calculateMatchingScore reporter content rand10).reasons.length ≤ 5
    ∧ (calculateMatchingScoreError reporter content).reasons = ["計算エラー"]
    ∧ (calculateMatchingScoreError reporter content).reasons.length ≤ 5 := by
  refine ⟨rfl, ?_, rfl, by simp [calculateMatchingScoreError]⟩
  show ((commonKeywords reporter content).take 3 ++ _).length ≤ 5
  simp [List.length_take]

/-- C5: whenever the lowercased concatenation of title, summary and body
contains the substring "ai", the AI/ML tag (category TECHNOLOGY, confidence
0.95) is among the generated tags. -/
theorem generateTags_includes_ai_tag (content : ContentProfile)
    (h : jsIncludes
        (jsToLower (content.title ++ " " ++ content.summary ++ " " ++ content.body))
        "ai" = true) :
    ({ name := "AI・機械学習", category := TagCategory.TECHNOLOGY,
        confidence := 0.95 } : TagSuggestion) ∈ generateTags content := by
  have e1 : jsIncludes "AI・機械学習" "AI" = true := by decide
  apply List.mem_filter.mpr
  refine ⟨by simp [mockTags], ?_⟩
  simp [e1, h]

/-- C5 witness: the AI-tag theorem applied to the sample content whose title
contains "AI". -/
theorem generateTags_includes_ai_tag_witness :
    jsIncludes
        (jsToLower (exContent.title ++ " " ++ exContent.summary ++ " " ++ exContent.body))
        "ai" = true
    ∧ ({ name := "AI・機械学習", category := TagCategory.TECHNOLOGY,
          confidence := 0.95 } : TagSuggestion) ∈ generateTags exContent :=
  ⟨by decide, generateTags_includes_ai_tag exContent (by decide)⟩

/-- C6: when the lowercased concatenation of title, summary and body contains
none of the five trigger substrings, no tag is generated. -/
theorem generateTags_empty_of_no_trigger (content : ContentProfile)
    (h1 : jsIncludes
        (jsToLower (content.title ++ " " ++ content.summary ++ " " ++ content.body))
        "ai" = false)
    (h2 : jsIncludes
        (jsToLower (content.title ++ " " ++ content.summary ++ " " ++ content.body))
        "dx" = false)
    (h3 : jsIncludes
        (jsToLower (content.title ++ " " ++ content.summary ++ " " ++ content.body))
        "リクルート" = false)
    (h4 : jsIncludes
        (jsToLower (content.title ++ " " ++ content.summary ++ " " ++ content.body))
        "it" = false)
    (h5 : jsIncludes
        (jsToLower (content.title ++ " " ++ content.summary ++ " " ++ content.body))
        "システム" = false) :
    generateTags content = [] := by
  simp [generateTags, mockTags, h1, h2, h3, h4, h5]

/-- C6 witness: the empty-tags theorem applied to a content item with no
trigger substrings. -/
theorem generateTags_empty_of_no_trigger_witness :
    jsIncludes
        (jsToLower (plainContent.title ++ " " ++ plainContent.summary ++ " " ++ plainContent.body))
        "ai" = false
    ∧ generateTags plainContent = [] :=
  ⟨by decide,
    generateTags_empty_of_no_trigger plainContent (by decide) (by decide)
      (by decide) (by decide) (by decide)⟩

/-- C8: with an empty reporters list `processContent` returns empty matching
results and recommendations, and its tags equal `generateTags` of the content
regardless of the reporters and random draws supplied. -/
theorem processContent_empty_reporters (content : ContentProfile)
    (reporters : List ReporterProfile) (rands rands0 : List ℚ) :
    (processContent content [] rands0).matchingResults = []
    ∧ (processContent content [] rands0).recommendations = []
    ∧ (processContent content reporters rands).tags = generateTags content :=
  ⟨rfl, rfl, rfl⟩

/-- Zipping with a list of random draws of matching length preserves the
reporter count. -/
theorem zip_length_of_eq {α β : Type} (l1 : List α) (l2 : List β)
    (h : l2.length = l1.length) : (l1.zip l2).length = l1.length := by
  induction l1 generalizing l2 with
  | nil => rfl
  | cons a l ih =>
    cases l2 with
    | nil => cases h
    | cons b l2 =>
      simp only [List.zip_cons_cons, List.length_cons] at h ⊢
      rw [ih l2 (by omega)]

/-- Every computed match result carries the id of one of the supplied
reporters. -/
theorem matchingResults_reporterId_mem (content : ContentProfile)
    (reporters : List ReporterProfile) (rands : List ℚ)
    (res : MatchingScoreResult)
    (h : res ∈ (processContent content reporters rands).matchingResults) :
    ∃ rep, rep ∈ reporters ∧ res.reporterId = rep.id := by
  simp only [processContent] at h
  obtain ⟨⟨rep, rq⟩, hmem, hres⟩ := List.mem_map.mp h
  refine ⟨rep, (List.of_mem_zip hmem).1, ?_⟩
  rw [← hres]
  simp

/-- Mapping `reporterId` over the draft-building `filterMap` of
`processContent` is the identity on ids whenever every result id occurs in the
reporter list (the reporter lookup then always succeeds). -/
theorem filterMap_drafts_map_reporterId (reporters : List ReporterProfile)
    (content : ContentProfile) (l : List MatchingScoreResult)
    (h : ∀ res ∈ l, ∃ rep, rep ∈ reporters ∧ res.reporterId = rep.id) :
    (l.filterMap (fun result =>
        (reporters.find? (fun r => r.id == result.reporterId)).map (fun reporter =>
          ({ reporterId := result.reporterId
             draft := generateRecommendation reporter content result.score }
            : Recommendation)))).map (fun rec => rec.reporterId)
      = l.map (fun res => res.reporterId) := by
  induction l with
  | nil => rfl
  | cons a l ih =>
    obtain ⟨rep, hrep, hid⟩ := h a (List.mem_cons_self a l)
    have hfind : (reporters.find? (fun r => r.id == a.reporterId)).isSome := by
      apply List.find?_isSome.mpr
      exact ⟨rep, hrep, by rw [hid]; simp⟩
    obtain ⟨rep2, hrep2⟩ := Option.isSome_iff_exists.mp hfind
    rw [List.filterMap_cons, hrep2]
    simp only [Option.map_some']
    rw [List.map_cons, List.map_cons]
    rw [ih (fun res hres => h res (List.mem_cons_of_mem a hres))]

/-- The recommendations of `processContent`, written over its own matching
results. -/
theorem processContent_recommendations_eq (content : ContentProfile)
    (reporters : List ReporterProfile) (rands : List ℚ) :
    (processContent content reporters rands).recommendations
      = ((processContent content reporters rands).matchingResults.filter
          (fun result => 75 ≤ result.score)).filterMap (fun result =>
            (reporters.find? (fun r => r.id == result.reporterId)).map
              (fun reporter =>
                { reporterId := result.reporterId
                  draft := generateRecommendation reporter content result.score })) :=
  rfl

/-- C9 (amended: the reporters list is assumed non-empty, as the claim is
refuted by the empty list): when every computed match result scores below 75,
`processContent` returns one match result per reporter, hence a non-empty
list, and no recommendations; and in general recommendations are generated
exactly for the match results scoring at least 75, in order. -/
theorem processContent_threshold_spec (content : ContentProfile)
    (reporters : List ReporterProfile) (rands : List ℚ)
    (hlen : rands.length = reporters.length) (hne : reporters ≠ []) :
    ((∀ res ∈ (processContent content reporters rands).matchingResults,
        res.score < 75) →
      (processContent content reporters rands).matchingResults.length
          = reporters.length
        ∧ (processContent content reporters rands).matchingResults ≠ []
        ∧ (processContent content reporters rands).recommendations = [])
    ∧ (processContent content reporters rands).recommendations.map
          (fun rec => rec.reporterId)
        = ((processContent content reporters rands).matchingResults.filter
            (fun result => 75 ≤ result.score)).map (fun res => res.reporterId) := by
  have hlength : (processContent content reporters rands).matchingResults.length
      = reporters.length := by
    simp only [processContent, List.length_map]
    exact zip_length_of_eq reporters rands hlen
  constructor
  · intro hlow
    refine ⟨hlength, ?_, ?_⟩
    · intro hnil
      have h0 : reporters.length = 0 := by rw [← hlength, hnil]; rfl
      exact hne (List.eq_nil_of_length_eq_zero h0)
    · rw [processContent_recommendations_eq]
      have hfe : (processContent content reporters rands).matchingResults.filter
          (fun result => 75 ≤ result.score) = [] := by
        apply List.filter_eq_nil_iff.mpr
        intro a ha
        simp only [decide_eq_true_eq]
        exact not_le.mpr (hlow a ha)
      rw [hfe]
      rfl
  · rw [processContent_recommendations_eq]
    apply filterMap_drafts_map_reporterId
    intro res hres
    exact matchingResults_reporterId_mem content reporters rands res
      (List.mem_filter.mp hres).1

/-- C9 witness: the threshold theorem applied to one reporter and one random
draw. -/
theorem processContent_threshold_spec_witness :
    ([(0 : ℚ)].length = [plainReporter].length ∧ [plainReporter] ≠ [])
    ∧ (((∀ res ∈ (processContent plainContent [plainReporter] [0]).matchingResults,
          res.score < 75) →
        (processContent plainContent [plainReporter] [0]).matchingResults.length
            = [plainReporter].length
          ∧ (processContent plainContent [plainReporter] [0]).matchingResults ≠ []
          ∧ (processContent plainContent [plainReporter] [0]).recommendations = [])
      ∧ (processContent plainContent [plainReporter] [0]).recommendations.map
            (fun rec => rec.reporterId)
          = ((processContent plainContent [plainReporter] [0]).matchingResults.filter
              (fun result => 75 ≤ result.score)).map (fun res => res.reporterId)) :=
  ⟨⟨rfl, by simp⟩,
    processContent_threshold_spec plainContent [plainReporter] [0] rfl (by simp)⟩

/-- C9 counterexample: with an empty reporters list every computed match
result vacuously scores below 75, yet the matching results are empty, not
non-empty as the claim states for every reporters list. -/
theorem processContent_threshold_counterexample :
    (∀ res ∈ (processContent plainContent [] []).matchingResults, res.score < 75)
    ∧ (processContent plainContent [] []).matchingResults = [] := by
  constructor
  · intro res hres
    simp [processContent] at hres
  · rfl

/-- C4: for the content titled "Our AI DX project" (empty summary and body)
and the reporter whose company is "Example Newspaper Co. AI desk", at least
one keyword is shared, the base score is at least 75, the final score is at
least 75 for every random draw in [0,10), and `processContent` produces a
recommendation draft for that reporter. -/
theorem processContent_ai_dx_example (rand10 : ℚ) (h0 : 0 ≤ rand10)
    (h1 : rand10 < 10) :
    1 ≤ (commonKeywords exReporter exContent).length
    ∧ (75 : ℚ) ≤ min 90 (((commonKeywords exReporter exContent).length : ℚ) * 15 + 60)
    ∧ 75 ≤ (calculateMatchingScore exReporter exContent rand10).score
    ∧ (processContent exContent [exReporter] [rand10]).recommendations.map
        (fun rec => rec.reporterId) = [exReporter.id] := by
  have hk : commonKeywords exReporter exContent = ["AI"] := by decide
  have hbase : (75 : ℚ)
      ≤ min 90 (((commonKeywords exReporter exContent).length : ℚ) * 15 + 60) := by
    rw [hk]
    norm_num
  have hscore : (75 : ℚ) ≤ (calculateMatchingScore exReporter exContent rand10).score := by
    rw [calculateMatchingScore_score_eq]
    have hlb := roundTo1_ge
      (min 90 (((commonKeywords exReporter exContent).length : ℚ) * 15 + 60) + rand10)
      75 (by push_cast; linarith)
    push_cast at hlb
    linarith
  refine ⟨by rw [hk]; simp, hbase, hscore, ?_⟩
  simp only [processContent]
  simp [hscore]

/-- C4 witness: the end-to-end theorem applied at random draw 0. -/
theorem processContent_ai_dx_example_witness :
    ((0 : ℚ) ≤ 0 ∧ (0 : ℚ) < 10)
    ∧ (1 ≤ (commonKeywords exReporter exContent).length
      ∧ (75 : ℚ) ≤ min 90 (((commonKeywords exReporter exContent).length : ℚ) * 15 + 60)
      ∧ 75 ≤ (calculateMatchingScore exReporter exContent 0).score
      ∧ (processContent exContent [exReporter] [0]).recommendations.map
          (fun rec => rec.reporterId) = [exReporter.id]) :=
  ⟨⟨by decide, by decide⟩, processContent_ai_dx_example 0 (by decide) (by decide)⟩
